import Mathlib

/-!
# Verification of the FiCore offline-first engine

Shallow embedding of the client-side offline-first synchronization engine:

* `service-worker.js` — the strategy dispatcher (fetch listener), the three
  caching strategies, offline response synthesis, and cache-version eviction
  on activation.
* `offline-manager.js` — the durable action queue (`offlineActions`),
  application-level TTL cache (`cachedData`), and the sync coordinator
  (`syncOfflineData`).

Asynchronous JS is embedded by explicit state passing: the network is an
oracle `String/QueuedAction → Option Response` (`none` models a rejected
fetch), the cache tier is a lookup function, and the IndexedDB object stores
are lists of records ordered by primary key, as IndexedDB maintains them.
-/

/-- An HTTP-like response body: the three synthesized offline shapes, plus
opaque network payloads split by whether their text parses as JSON
(`jsonValue` does, `netBody` does not) — the distinction
`response.json()` branches on. -/
inductive Body
  | htmlPage (s : String)
  | jsonOffline (offline : Bool) (message : String) (timestamp : Nat)
  | textBody (s : String)
  | netBody (tag : Nat)
  | jsonValue (tag : Nat)
deriving DecidableEq

/-- A response: status code plus body. -/
structure Response where
  status : Nat
  body : Body
deriving DecidableEq

/-- `Response.ok` of the platform: status in the range 200–299. -/
def respOk (r : Response) : Bool :=
  decide (200 ≤ r.status ∧ r.status < 300)

/-- Whether `response.json()` resolves, i.e. the body text parses as JSON:
the synthesized offline JSON body and JSON network payloads do; HTML pages,
plain text (including the empty body of a 204) and non-JSON network
payloads make it reject. -/
def parsesAsJson : Body → Bool
  | .jsonOffline _ _ _ => true
  | .jsonValue _ => true
  | .htmlPage _ => false
  | .textBody _ => false
  | .netBody _ => false

/-- JS `String.prototype.startsWith`, on code-point sequences. -/
def jsStartsWith (s p : String) : Bool :=
  p.data.isPrefixOf s.data

/-- JS `String.prototype.includes` (substring containment), on code-point
sequences. -/
def charsContain (s : List Char) (sub : List Char) : Bool :=
  match s with
  | [] => sub.isEmpty
  | _ :: rest => sub.isPrefixOf s || charsContain rest sub

/-- `accept?.includes(needle)`: the accept header may be absent, in which
case the optional-chaining call is falsy. -/
def acceptIncludes (accept : Option String) (needle : String) : Bool :=
  match accept with
  | some a => charsContain a.data needle.data
  | none => false

/-! ## service-worker.js: constants (lines 1–56) -/

def CACHE_VERSION : String := "v2.1"
def STATIC_CACHE : String := "ficore-static-" ++ CACHE_VERSION
def DYNAMIC_CACHE : String := "ficore-dynamic-" ++ CACHE_VERSION
def API_CACHE : String := "ficore-api-" ++ CACHE_VERSION

def STATIC_ASSETS : List String := [
  "/static/css/styles.css",
  "/static/css/bootstrap-icons.min.css",
  "/static/css/newbasefilelooks.css",
  "/static/css/iconslooks.css",
  "/static/css/newhomepagepersonal.css",
  "/static/css/dark_mode_enhancements.css",
  "/static/css/tool-header-fix.css",
  "/static/js/scripts.js",
  "/static/js/interactivity.js",
  "/static/js/offline-manager.js",
  "/static/manifest.json",
  "/static/img/favicon.ico",
  "/static/img/apple-touch-icon.png",
  "/static/img/favicon-32x32.png",
  "/static/img/favicon-16x16.png",
  "/static/img/default_profile.png",
  "/static/img/ficore_africa_logo.png",
  "/static/img/icons/icon-192x192.png",
  "/static/img/icons/icon-512x512.png"]

def NETWORK_FIRST_ROUTES : List String := [
  "/users/login",
  "/users/logout",
  "/users/signup",
  "/users/forgot_password",
  "/users/reset_password",
  "/users/verify_2fa",
  "/api/notifications/count",
  "/change-language"]

def CACHEABLE_API_ROUTES : List String := [
  "/dashboard/",
  "/bills/",
  "/budget/",
  "/shopping/",
  "/reports/",
  "/settings/profile"]

def CACHE_FIRST_ROUTES : List String := [
  "/general/home",
  "/general/landing",
  "/set-language"]

/-! ## service-worker.js: strategy dispatcher (fetch listener, lines 77–98) -/

inductive Strategy
  | networkFirst
  | cacheFirst
  | staleWhileRevalidate
deriving DecidableEq

/-- The route-classification chain of the fetch listener (lines 87–97):
network-first prefixes, then cacheable-API prefixes (stale-while-revalidate),
then cache-first prefixes, then exact static-asset match (cache-first),
else the stale-while-revalidate default. -/
def classify (pathname : String) : Strategy :=
  if NETWORK_FIRST_ROUTES.any (fun route => jsStartsWith pathname route) then
    .networkFirst
  else if CACHEABLE_API_ROUTES.any (fun route => jsStartsWith pathname route) then
    .staleWhileRevalidate
  else if CACHE_FIRST_ROUTES.any (fun route => jsStartsWith pathname route) then
    .cacheFirst
  else if STATIC_ASSETS.any (fun asset => decide (pathname = asset)) then
    .cacheFirst
  else
    .staleWhileRevalidate

/-- Outcome of the fetch listener: either the event is not intercepted
(the listener returns before calling `respondWith`), or `respondWith` is
called with the handler of the selected strategy. -/
inductive DispatchResult
  | passThrough
  | handled (s : Strategy)
deriving DecidableEq

/-- Lines 82–97: `if (method !== 'GET' || protocol === 'chrome-extension:')
return;` then the classification chain. -/
def fetchDispatch (method : String) (protocol : String) (pathname : String) :
    DispatchResult :=
  if !decide (method = "GET") || decide (protocol = "chrome-extension:") then
    .passThrough
  else
    .handled (classify pathname)

/-! ## service-worker.js: offline response synthesis (lines 156–216) -/

/-- The minimal static offline page returned by `createOfflineHTML`
(lines 188–216); its exact markup is irrelevant to the properties, only
that it is an HTML body served with status 200. -/
def offlineHTML : String := "FiCore Africa - Offline fallback page"

/-- `createOfflineResponse(request)` (lines 156–186): three-way branch on
the accept header; `cacheMatch` is `caches.match` over all namespaces. -/
def createOfflineResponse (cacheMatch : String → Option Response)
    (accept : Option String) (now : Nat) : Response :=
  if acceptIncludes accept "text/html" then
    match cacheMatch "/general/home" with
    | some r => r
    | none => { status := 200, body := .htmlPage offlineHTML }
  else if acceptIncludes accept "application/json" then
    { status := 200,
      body := .jsonOffline true "This data is not available offline" now }
  else
    { status := 503, body := .textBody "Offline: Resource not available" }

/-! ## service-worker.js: strategy handlers (lines 101–153) -/

/-- What one strategy handler produces: the value the returned promise
resolves to (`none` models resolving to the JS `null`), the cache writes
performed (namespace, request URL, stored response), and whether
`caches.match` was ever consulted. -/
structure HandlerResult where
  response : Option Response
  cachePut : List (String × String × Response)
  consultedCache : Bool
deriving DecidableEq

/-- `handleNetworkFirst` (lines 101–117): await fetch; on success cache the
ok response in the dynamic cache and return the live response; on rejection
fall back to `caches.match`, else to the synthesized offline response. -/
def handleNetworkFirst (cacheMatch : String → Option Response)
    (net : Option Response) (url : String) (accept : Option String)
    (now : Nat) : HandlerResult :=
  match net with
  | some networkResponse =>
      { response := some networkResponse,
        cachePut :=
          if respOk networkResponse then [(DYNAMIC_CACHE, url, networkResponse)]
          else [],
        consultedCache := false }
  | none =>
      match cacheMatch url with
      | some cachedResponse =>
          { response := some cachedResponse, cachePut := [],
            consultedCache := true }
      | none =>
          { response := some (createOfflineResponse cacheMatch accept now),
            cachePut := [], consultedCache := true }

/-- `handleCacheFirst` (lines 120–136): return the cache hit if present;
otherwise fetch, caching an ok response in the static cache; on rejection
synthesize the offline response. -/
def handleCacheFirst (cacheMatch : String → Option Response)
    (net : Option Response) (url : String) (accept : Option String)
    (now : Nat) : HandlerResult :=
  match cacheMatch url with
  | some cachedResponse =>
      { response := some cachedResponse, cachePut := [],
        consultedCache := true }
  | none =>
      match net with
      | some networkResponse =>
          { response := some networkResponse,
            cachePut :=
              if respOk networkResponse then
                [(STATIC_CACHE, url, networkResponse)]
              else [],
            consultedCache := true }
      | none =>
          { response := some (createOfflineResponse cacheMatch accept now),
            cachePut := [], consultedCache := true }

/-- `handleStaleWhileRevalidate` (lines 139–153). The function returns
`cachedResponse || fetchPromise || createOfflineResponse(request)`. Since
`fetchPromise` is a Promise object and every object is truthy, the third
disjunct is unreachable: on a cache miss the returned value is the pending
`fetchPromise`, whose resolution is the network response on success and the
JS `null` on failure (its `.catch(() => null)`). Hence `response := net`
on a cache miss, never the synthesized offline response. An ok network
response is written to the api cache when the URL contains `/api/`, else
to the dynamic cache, regardless of the cache-hit branch. -/
def handleStaleWhileRevalidate (cacheMatch : String → Option Response)
    (net : Option Response) (url : String) : HandlerResult :=
  let cachePut :=
    match net with
    | some networkResponse =>
        if respOk networkResponse then
          [(if charsContain url.data "/api/".data then API_CACHE
            else DYNAMIC_CACHE, url, networkResponse)]
        else []
    | none => []
  match cacheMatch url with
  | some cachedResponse =>
      { response := some cachedResponse, cachePut := cachePut,
        consultedCache := true }
  | none =>
      { response := net, cachePut := cachePut, consultedCache := true }

/-! ## service-worker.js: activation eviction (lines 218–247) -/

/-- `cacheWhitelist` (line 220): the three current-version namespaces. -/
def cacheWhitelist : List String := [STATIC_CACHE, DYNAMIC_CACHE, API_CACHE]

/-- The activate listener's cleanup (lines 225–234): every existing cache
namespace not in the whitelist is deleted; the surviving namespaces are
exactly the existing whitelisted ones. -/
def activateCaches (cacheNames : List String) : List String :=
  cacheNames.filter (fun cacheName => decide (cacheName ∈ cacheWhitelist))

/-! ## offline-manager.js: the durable action queue

The `offlineActions` object store has `keyPath: 'id'`; IndexedDB keeps
records sorted by primary key, and a `getAll` on the `synced` index returns
matching records ordered by (index key, primary key) — with all matches
sharing the index key `false`, that is primary-key order. The store is
embedded as a list of records in primary-key order. -/

/-- One record of the `offlineActions` store
(`storeOfflineAction`, lines 136–141). -/
structure QueuedAction where
  id : ℚ
  type : String
  url : String
  method : String
  headers : List (String × String)
  body : String
  timestamp : Nat
  synced : Bool
deriving DecidableEq

/-- The caller-supplied part of an action
(`storeOfflineAction`'s `action` argument). -/
structure ActionInput where
  type : String
  url : String
  method : String
  headers : List (String × String)
  body : String
deriving DecidableEq

/-- The `actionData` record built by `storeOfflineAction` (lines 136–141):
`{...action, timestamp: Date.now(), synced: false, id: Date.now() + Math.random()}`.
`now` is `Date.now()` in milliseconds and `r` the `Math.random()` draw,
so `0 ≤ r < 1`. -/
def mkActionData (action : ActionInput) (now : Nat) (r : ℚ) : QueuedAction :=
  { id := (now : ℚ) + r, type := action.type, url := action.url,
    method := action.method, headers := action.headers, body := action.body,
    timestamp := now, synced := false }

/-- Insert a record into the store at its primary-key position. -/
def insertById (store : List QueuedAction) (a : QueuedAction) :
    List QueuedAction :=
  match store with
  | [] => [a]
  | b :: rest => if a.id < b.id then a :: b :: rest else b :: insertById rest a

/-- `storeOfflineAction` (lines 130–152): fails (returns false) when the
database handle is absent; otherwise adds the new record. -/
def storeOfflineAction (dbPresent : Bool) (store : List QueuedAction)
    (action : ActionInput) (now : Nat) (r : ℚ) :
    Option (List QueuedAction) :=
  if !dbPresent then none
  else some (insertById store (mkActionData action now r))

/-- `syncSingleAction` (lines 224–240) resolves iff the fetch resolved with
an ok response whose body parses as JSON: it rethrows a rejected fetch,
throws on `!response.ok` (line 236), and ends in `return response.json()`
(line 239), which rejects for an ok response with a non-JSON body. -/
def syncSingleActionOk (net : QueuedAction → Option Response)
    (a : QueuedAction) : Bool :=
  match net a with
  | some r => respOk r && parsesAsJson r.body
  | none => false

/-- `store.put(action)` after `action.synced = true`: replace the record
with primary key `i` by its synced copy. -/
def setSyncedById (store : List QueuedAction) (i : ℚ) : List QueuedAction :=
  store.map (fun b => if b.id = i then { b with synced := true } else b)

/-- The `for (const action of unsyncedActions)` loop of `syncOfflineData`
(lines 205–216): each iteration replays the action (one fetch, appended to
the attempt log), and on success puts the synced copy back; the
`try/catch` swallows a failure so the loop continues with the rest. Returns
the final store and the replay log in order. -/
def drainLoop (ok : QueuedAction → Bool) :
    List QueuedAction → List QueuedAction → List QueuedAction →
    List QueuedAction × List QueuedAction
  | [], store, attempted => (store, attempted)
  | a :: rest, store, attempted =>
      if ok a then
        drainLoop ok rest (setSyncedById store a.id) (attempted ++ [a])
      else
        drainLoop ok rest store (attempted ++ [a])

/-- `syncOfflineData` (lines 195–222): returns at once when offline or the
database handle is absent; otherwise fetches `index('synced').getAll(false)`
— the unsynced records in primary-key order — and runs the replay loop.
Result: (final store, replayed actions in order). -/
def syncOfflineData (isOnline : Bool) (dbPresent : Bool)
    (net : QueuedAction → Option Response) (store : List QueuedAction) :
    List QueuedAction × List QueuedAction :=
  if !isOnline || !dbPresent then (store, [])
  else
    drainLoop (syncSingleActionOk net)
      (store.filter (fun a => !a.synced)) store []

/-! ## service-worker.js: background-sync drain (lines 258–301) -/

/-- `getOfflineDataFromIDB` (lines 293–296): a placeholder that returns the
empty list. -/
def getOfflineDataFromIDB : List QueuedAction := []

/-- `removeOfflineDataFromIDB` (lines 298–301): a placeholder that returns
true without touching the store. -/
def removeOfflineDataFromIDB (store : List QueuedAction) (_i : ℚ) :
    List QueuedAction × Bool :=
  (store, true)

/-- The service worker's `syncOfflineData` (lines 258–290): iterates the
items of `getOfflineDataFromIDB()`, replaying each and calling
`removeOfflineDataFromIDB` on an ok response. -/
def swSyncOfflineData (net : QueuedAction → Option Response)
    (store : List QueuedAction) : List QueuedAction :=
  getOfflineDataFromIDB.foldl
    (fun s item =>
      match net item with
      | some r => if respOk r then (removeOfflineDataFromIDB s item.id).1 else s
      | none => s)
    store

/-! ## offline-manager.js: the `cachedData` TTL cache (lines 154–192) -/

/-- One record of the `cachedData` store, keyed by `key`. -/
structure CachedRecord (α : Type) where
  key : String
  data : α
  timestamp : Nat
  expiry : Nat
deriving DecidableEq

/-- `store.get(key)` on the `cachedData` store. -/
def getRecord {α : Type} (store : List (CachedRecord α)) (key : String) :
    Option (CachedRecord α) :=
  store.find? (fun r => decide (r.key = key))

/-- `getCachedData(key)` (lines 154–170): null when the database handle is
absent; otherwise the record's data when it exists and `expiry > Date.now()`,
else null (lazy expiry: the expired record is not deleted). -/
def getCachedData {α : Type} (dbPresent : Bool)
    (store : List (CachedRecord α)) (key : String) (now : Nat) : Option α :=
  if !dbPresent then none
  else
    match getRecord store key with
    | some result => if now < result.expiry then some result.data else none
    | none => none

/-- `setCachedData(key, data, ttl)` (lines 172–192): `store.put` of
`{key, data, timestamp: Date.now(), expiry: Date.now() + ttl}`, replacing
any record with the same key; no write when the database handle is absent. -/
def setCachedData {α : Type} (dbPresent : Bool)
    (store : List (CachedRecord α)) (key : String) (data : α)
    (ttl : Nat) (now : Nat) : List (CachedRecord α) :=
  if !dbPresent then store
  else
    { key := key, data := data, timestamp := now, expiry := now + ttl } ::
      store.filter (fun r => !decide (r.key = key))

/-! ## Sample data for concrete evaluations -/

def sampleResponseOk : Response := { status := 200, body := Body.jsonValue 0 }

def netAlwaysOk : QueuedAction → Option Response := fun _ => some sampleResponseOk

def inputA : ActionInput :=
  { type := "save_bill", url := "/api/bills", method := "POST", headers := [],
    body := "billA" }

def inputB : ActionInput :=
  { type := "save_budget", url := "/api/budget", method := "POST",
    headers := [], body := "budgetB" }

def storeAB : List QueuedAction :=
  [mkActionData inputA 1 0, mkActionData inputB 2 (1/2)]

def cachedHome : Response := { status := 200, body := Body.netBody 7 }

def resp204 : Response := { status := 204, body := Body.textBody "" }

def net204 : QueuedAction → Option Response := fun _ => some resp204

def storeA : List QueuedAction := [mkActionData inputA 1 0]

/-! ## Closed form of the drain loop -/

/-- The transformation one full replay pass applies to a stored record:
its synced copy when some replayed action with its primary key succeeded,
itself otherwise. -/
def applySync (ok : QueuedAction → Bool) (l : List QueuedAction)
    (b : QueuedAction) : QueuedAction :=
  if l.any (fun a => ok a && decide (b.id = a.id)) then
    { b with synced := true }
  else b

theorem drainLoop_log (ok : QueuedAction → Bool) (l : List QueuedAction) :
    ∀ store attempted,
      (drainLoop ok l store attempted).2 = attempted ++ l := by
  induction l with
  | nil => intro store attempted; simp [drainLoop]
  | cons a rest ih =>
      intro store attempted
      by_cases h : ok a = true
      · simp [drainLoop, h, ih]
      · simp only [Bool.not_eq_true] at h
        simp [drainLoop, h, ih]

theorem applySync_setSynced (ok : QueuedAction → Bool)
    (rest : List QueuedAction) (a b : QueuedAction) (h : ok a = true) :
    applySync ok rest (if b.id = a.id then { b with synced := true } else b)
      = applySync ok (a :: rest) b := by
  by_cases hid : b.id = a.id
  · simp [hid, applySync, h]
  · simp [hid, applySync, h]

theorem applySync_cons_of_not_ok (ok : QueuedAction → Bool)
    (rest : List QueuedAction) (a b : QueuedAction) (h : ok a = false) :
    applySync ok rest b = applySync ok (a :: rest) b := by
  simp [applySync, h]

theorem drainLoop_store (ok : QueuedAction → Bool) (l : List QueuedAction) :
    ∀ store attempted,
      (drainLoop ok l store attempted).1 = store.map (applySync ok l) := by
  induction l with
  | nil =>
      intro store attempted
      have hmap : store.map (applySync ok []) = store.map id :=
        List.map_congr_left fun b _ => by simp [applySync]
      simp [drainLoop, hmap]
  | cons a rest ih =>
      intro store attempted
      by_cases h : ok a = true
      · simp only [drainLoop, h, if_pos]
        rw [ih, setSyncedById, List.map_map]
        exact List.map_congr_left fun b _ => applySync_setSynced ok rest a b h
      · simp only [Bool.not_eq_true] at h
        simp only [drainLoop, h, Bool.false_eq_true, if_neg, not_false_iff]
        rw [ih]
        exact List.map_congr_left fun b _ => applySync_cons_of_not_ok ok rest a b h

theorem applySync_id (ok : QueuedAction → Bool) (l : List QueuedAction)
    (b : QueuedAction) : (applySync ok l b).id = b.id := by
  unfold applySync; split <;> rfl

/-- In a primary-key-sorted list, two members with ordered keys occur in
that order. -/
theorem pairwise_mem_split {l : List QueuedAction}
    (hl : l.Pairwise (fun x y => x.id < y.id)) {a b : QueuedAction}
    (ha : a ∈ l) (hb : b ∈ l) (hab : a.id < b.id) :
    ∃ l1 l2 l3, l = l1 ++ a :: (l2 ++ b :: l3) := by
  induction l with
  | nil => cases ha
  | cons x xs ih =>
      rcases List.pairwise_cons.mp hl with ⟨hx, hxs⟩
      rcases List.mem_cons.mp ha with rfl | ha'
      · have hbx : b ∈ xs := by
          rcases List.mem_cons.mp hb with rfl | hb'
          · exact absurd hab (lt_irrefl _)
          · exact hb'
        rcases List.append_of_mem hbx with ⟨l2, l3, rfl⟩
        exact ⟨[], l2, l3, rfl⟩
      · rcases List.mem_cons.mp hb with rfl | hb'
        · exact absurd hab (asymm (hx a ha'))
        · rcases ih hxs ha' hb' with ⟨l1, l2, l3, rfl⟩
          exact ⟨x :: l1, l2, l3, rfl⟩

/-! ## Claim theorems -/

/-- C1. The claim asserts that whenever the network is unreachable and no
cache entry matches, every selected strategy returns a well-formed
synthesized offline response. The code violates this for the
stale-while-revalidate default: its return expression
`cachedResponse || fetchPromise || createOfflineResponse(request)`
short-circuits at the always-truthy pending `fetchPromise`, which resolves
to `null` on total network failure, so the handler resolves to `null`
rather than the synthesized response. This theorem evaluates the failing
input: a GET for an unlisted page is dispatched to stale-while-revalidate,
and with an empty cache and a failed fetch the handler's resolution is
`none`, while the synthesized offline response that the claim expects
would have been the status-200 fallback page. -/
theorem swr_total_failure_resolves_null :
    fetchDispatch "GET" "https:" "/personal/anything"
      = DispatchResult.handled Strategy.staleWhileRevalidate ∧
    (handleStaleWhileRevalidate (fun _ => none) none
      "/personal/anything").response = none ∧
    createOfflineResponse (fun _ => none) (some "text/html") 0
      = { status := 200, body := Body.htmlPage offlineHTML } :=
  ⟨by decide, rfl, by decide⟩

/-- C5: route classification selects exactly one strategy with first match
winning, in the precedence order network-first routes, cacheable-API routes
(stale-while-revalidate), cache-first routes, exact static-asset match
(cache-first treatment), default stale-while-revalidate. -/
theorem classify_precedence (path : String) :
    (NETWORK_FIRST_ROUTES.any (fun route => jsStartsWith path route) = true →
      classify path = Strategy.networkFirst) ∧
    (NETWORK_FIRST_ROUTES.any (fun route => jsStartsWith path route) = false →
      CACHEABLE_API_ROUTES.any (fun route => jsStartsWith path route) = true →
      classify path = Strategy.staleWhileRevalidate) ∧
    (NETWORK_FIRST_ROUTES.any (fun route => jsStartsWith path route) = false →
      CACHEABLE_API_ROUTES.any (fun route => jsStartsWith path route) = false →
      CACHE_FIRST_ROUTES.any (fun route => jsStartsWith path route) = true →
      classify path = Strategy.cacheFirst) ∧
    (NETWORK_FIRST_ROUTES.any (fun route => jsStartsWith path route) = false →
      CACHEABLE_API_ROUTES.any (fun route => jsStartsWith path route) = false →
      CACHE_FIRST_ROUTES.any (fun route => jsStartsWith path route) = false →
      STATIC_ASSETS.any (fun asset => decide (path = asset)) = true →
      classify path = Strategy.cacheFirst) ∧
    (NETWORK_FIRST_ROUTES.any (fun route => jsStartsWith path route) = false →
      CACHEABLE_API_ROUTES.any (fun route => jsStartsWith path route) = false →
      CACHE_FIRST_ROUTES.any (fun route => jsStartsWith path route) = false →
      STATIC_ASSETS.any (fun asset => decide (path = asset)) = false →
      classify path = Strategy.staleWhileRevalidate) := by
  refine ⟨?_, ?_, ?_, ?_, ?_⟩
  · intro h1
    unfold classify
    rw [h1]
    simp
  · intro h1 h2
    unfold classify
    rw [h1, h2]
    simp
  · intro h1 h2 h3
    unfold classify
    rw [h1, h2, h3]
    simp
  · intro h1 h2 h3 h4
    unfold classify
    rw [h1, h2, h3, h4]
    simp
  · intro h1 h2 h3 h4
    unfold classify
    rw [h1, h2, h3, h4]
    simp

/-- Witness for C5: the login route matches a network-first rule and is
classified network-first. -/
theorem classify_precedence_witness :
    NETWORK_FIRST_ROUTES.any (fun route => jsStartsWith "/users/login" route)
      = true ∧
    classify "/users/login" = Strategy.networkFirst :=
  ⟨by decide, (classify_precedence "/users/login").1 (by decide)⟩

/-- C6: activation deletes every cache namespace outside the whitelist of
the three current-version namespaces and preserves every existing
whitelisted one. -/
theorem activate_eviction (cacheNames : List String) (cacheName : String) :
    (cacheName ∉ cacheWhitelist → cacheName ∉ activateCaches cacheNames) ∧
    (cacheName ∈ cacheNames → cacheName ∈ cacheWhitelist →
      cacheName ∈ activateCaches cacheNames) := by
  constructor
  · intro hn hmem
    exact hn (of_decide_eq_true (List.mem_filter.mp hmem).2)
  · intro h1 h2
    exact List.mem_filter.mpr ⟨h1, decide_eq_true h2⟩

/-- Witness for C6: a version-v2.0 static namespace is evicted while the
current static namespace survives. -/
theorem activate_eviction_witness :
    "ficore-static-v2.0" ∉ cacheWhitelist ∧
    "ficore-static-v2.0" ∉ activateCaches [STATIC_CACHE, "ficore-static-v2.0"] ∧
    STATIC_CACHE ∈ activateCaches [STATIC_CACHE, "ficore-static-v2.0"] :=
  ⟨by decide,
   (activate_eviction [STATIC_CACHE, "ficore-static-v2.0"]
     "ficore-static-v2.0").1 (by decide),
   (activate_eviction [STATIC_CACHE, "ficore-static-v2.0"] STATIC_CACHE).2
     (by decide) (by decide)⟩

/-- C8: when the network fetch of a network-first request completes, the
handler returns exactly the live network response and never consults the
cache. -/
theorem network_first_live (cacheMatch : String → Option Response)
    (net : Option Response) (url : String) (accept : Option String)
    (now : Nat) (networkResponse : Response)
    (hnet : net = some networkResponse) :
    (handleNetworkFirst cacheMatch net url accept now).response
      = some networkResponse ∧
    (handleNetworkFirst cacheMatch net url accept now).consultedCache
      = false := by
  subst hnet
  exact ⟨rfl, rfl⟩

/-- Witness for C8: even with a cache entry present, the completed network
response is returned and the cache is not consulted. -/
theorem network_first_live_witness :
    (handleNetworkFirst (fun _ => some cachedHome) (some sampleResponseOk)
      "/users/login" (some "text/html") 5).response = some sampleResponseOk ∧
    (handleNetworkFirst (fun _ => some cachedHome) (some sampleResponseOk)
      "/users/login" (some "text/html") 5).consultedCache = false :=
  network_first_live (fun _ => some cachedHome) (some sampleResponseOk)
    "/users/login" (some "text/html") 5 sampleResponseOk rfl

/-- C9 counterexample: the claim says every request with a non-http(s)
scheme passes through unintercepted, but the listener only exempts the
chrome-extension scheme: a GET with the ftp scheme is dispatched to a
strategy handler. -/
theorem nonhttp_get_intercepted :
    ¬("ftp:" = "http:" ∨ "ftp:" = "https:") ∧
    fetchDispatch "GET" "ftp:" "/personal/page" ≠ DispatchResult.passThrough := by
  decide

/-- C9 amended: non-GET requests and chrome-extension-scheme requests pass
through unintercepted; every other GET request — regardless of scheme — is
dispatched to the strategy selected by route classification. -/
theorem fetch_gate_amended (method protocol pathname : String) :
    (method ≠ "GET" →
      fetchDispatch method protocol pathname = DispatchResult.passThrough) ∧
    (protocol = "chrome-extension:" →
      fetchDispatch method protocol pathname = DispatchResult.passThrough) ∧
    (method = "GET" → protocol ≠ "chrome-extension:" →
      fetchDispatch method protocol pathname
        = DispatchResult.handled (classify pathname)) := by
  refine ⟨?_, ?_, ?_⟩ <;> intros <;> simp_all [fetchDispatch]

/-- Witness for amended C9: a POST passes through, a chrome-extension GET
passes through, and an https GET is handled. -/
theorem fetch_gate_amended_witness :
    fetchDispatch "POST" "https:" "/budget/main" = DispatchResult.passThrough ∧
    fetchDispatch "GET" "chrome-extension:" "/budget/main"
      = DispatchResult.passThrough ∧
    fetchDispatch "GET" "https:" "/budget/main"
      = DispatchResult.handled (classify "/budget/main") :=
  ⟨(fetch_gate_amended "POST" "https:" "/budget/main").1 (by decide),
   (fetch_gate_amended "GET" "chrome-extension:" "/budget/main").2.1 rfl,
   (fetch_gate_amended "GET" "https:" "/budget/main").2.2 rfl (by decide)⟩

/-- C10: a drain invoked while offline, or with the database handle absent,
returns at once: the store is unchanged and no network request is issued. -/
theorem sync_noop_when_offline (isOnline dbPresent : Bool)
    (net : QueuedAction → Option Response) (store : List QueuedAction)
    (h : isOnline = false ∨ dbPresent = false) :
    syncOfflineData isOnline dbPresent net store = (store, []) := by
  rcases h with h | h <;> subst h <;> simp [syncOfflineData]

/-- Witness for C10: an offline drain over a two-action queue is a no-op. -/
theorem sync_noop_when_offline_witness :
    syncOfflineData false true netAlwaysOk storeAB = (storeAB, []) :=
  sync_noop_when_offline false true netAlwaysOk storeAB (Or.inl rfl)

/-- C2 as amended: when the replay of an unsynced queued action during a
drain succeeds — the network response is ok and its body parses as JSON,
so that `syncSingleAction`'s final `return response.json()` resolves — the
drain puts back the same record with its synced flag flipped to true; the
store keeps exactly the same primary keys afterwards (no record is
deleted), and the service worker's background drain never touches the
store either. -/
theorem drain_success_flips_in_place (net : QueuedAction → Option Response)
    (store : List QueuedAction) (a : QueuedAction)
    (ha : a ∈ store) (hunsynced : a.synced = false)
    (hok : syncSingleActionOk net a = true) :
    { a with synced := true } ∈ (syncOfflineData true true net store).1 ∧
    (syncOfflineData true true net store).1.map (fun b => b.id)
      = store.map (fun b => b.id) ∧
    swSyncOfflineData net store = store := by
  have hstore : (syncOfflineData true true net store).1
      = store.map (applySync (syncSingleActionOk net)
          (store.filter (fun b => !b.synced))) :=
    drainLoop_store (syncSingleActionOk net)
      (store.filter (fun b => !b.synced)) store []
  refine ⟨?_, ?_, rfl⟩
  · rw [hstore]
    have hmem : a ∈ store.filter (fun b => !b.synced) :=
      List.mem_filter.mpr ⟨ha, by simp [hunsynced]⟩
    have hcond : (store.filter (fun b => !b.synced)).any
        (fun x => syncSingleActionOk net x && decide (a.id = x.id)) = true :=
      List.any_eq_true.mpr ⟨a, hmem, by simp [hok]⟩
    have happ : applySync (syncSingleActionOk net)
        (store.filter (fun b => !b.synced)) a = { a with synced := true } := by
      simp [applySync, hcond]
    exact happ ▸ List.mem_map_of_mem _ ha
  · rw [hstore, List.map_map]
    exact List.map_congr_left fun b _ => applySync_id _ _ b

/-- Witness for C2: draining the two-action queue with an all-ok network
marks the first action synced in place, keeps both primary keys, and the
service worker drain is a no-op. -/
theorem drain_success_flips_in_place_witness :
    { (mkActionData inputA 1 0) with synced := true }
      ∈ (syncOfflineData true true netAlwaysOk storeAB).1 ∧
    (syncOfflineData true true netAlwaysOk storeAB).1.map (fun b => b.id)
      = storeAB.map (fun b => b.id) ∧
    swSyncOfflineData netAlwaysOk storeAB = storeAB :=
  drain_success_flips_in_place netAlwaysOk storeAB (mkActionData inputA 1 0)
    (by simp [storeAB]) rfl (by decide)

/-- C2 counterexample: an ok network response does not suffice to flip
synced. `syncSingleAction` ends in `return response.json()`, so an ok
204-style response with an empty non-JSON body makes the awaited promise
reject; the per-item catch fires and the flip is skipped: the drain leaves
the one-action store unchanged and the synced copy is absent. -/
theorem ok_response_not_flipped :
    respOk resp204 = true ∧
    (syncOfflineData true true net204 storeA).1 = storeA ∧
    { (mkActionData inputA 1 0) with synced := true }
      ∉ (syncOfflineData true true net204 storeA).1 := by
  refine ⟨rfl, rfl, fun hmem => ?_⟩
  have hmem' : { (mkActionData inputA 1 0) with synced := true } ∈ storeA :=
    hmem
  simp [storeA, mkActionData] at hmem'

/-- C3: a drain replays the unsynced records in primary-key order, and an
action stored at a strictly earlier millisecond has the smaller key, so it
is replayed before any action stored later — FIFO. -/
theorem drain_fifo (net : QueuedAction → Option Response)
    (store : List QueuedAction) (inA inB : ActionInput)
    (tA tB : Nat) (rA rB : ℚ)
    (hrA0 : 0 ≤ rA) (hrA1 : rA < 1) (hrB0 : 0 ≤ rB) (hrB1 : rB < 1)
    (ht : tA < tB)
    (hsorted : store.Pairwise (fun x y => x.id < y.id))
    (hA : mkActionData inA tA rA ∈ store)
    (hB : mkActionData inB tB rB ∈ store) :
    ∃ l1 l2 l3, (syncOfflineData true true net store).2
      = l1 ++ mkActionData inA tA rA :: (l2 ++ mkActionData inB tB rB :: l3) := by
  have hlog : (syncOfflineData true true net store).2
      = store.filter (fun b => !b.synced) := by
    have h := drainLoop_log (syncSingleActionOk net)
      (store.filter (fun b => !b.synced)) store []
    simpa using h
  rw [hlog]
  have hfA : mkActionData inA tA rA ∈ store.filter (fun b => !b.synced) :=
    List.mem_filter.mpr ⟨hA, by simp [mkActionData]⟩
  have hfB : mkActionData inB tB rB ∈ store.filter (fun b => !b.synced) :=
    List.mem_filter.mpr ⟨hB, by simp [mkActionData]⟩
  have hsf : (store.filter (fun b => !b.synced)).Pairwise
      (fun x y => x.id < y.id) := hsorted.sublist (List.filter_sublist _)
  have h1 : tA + 1 ≤ tB := ht
  have hcast : (tA : ℚ) + 1 ≤ (tB : ℚ) := by exact_mod_cast h1
  have hid : (mkActionData inA tA rA).id < (mkActionData inB tB rB).id := by
    simp only [mkActionData]
    linarith
  exact pairwise_mem_split hsf hfA hfB hid

/-- Witness for C3: with action A stored at t=1 and B at t=2, the drain's
replay log lists A before B. -/
theorem drain_fifo_witness :
    ∃ l1 l2 l3, (syncOfflineData true true netAlwaysOk storeAB).2
      = l1 ++ mkActionData inputA 1 0
          :: (l2 ++ mkActionData inputB 2 (1/2) :: l3) :=
  drain_fifo netAlwaysOk storeAB inputA inputB 1 2 0 (1/2)
    (by norm_num) (by norm_num) (by norm_num) (by norm_num) (by norm_num)
    (by simp [storeAB, mkActionData]; norm_num)
    (by simp [storeAB]) (by simp [storeAB])

/-- C4: a failed replay (rejected fetch, non-ok response, or a rejected
`response.json()`) leaves the action in the store unchanged with synced
still false, and the drain still attempts every unsynced action of the
pass: the replay log is the whole unsynced list in order. -/
theorem drain_failure_isolated (net : QueuedAction → Option Response)
    (store : List QueuedAction) (a : QueuedAction)
    (hnodup : (store.map (fun b => b.id)).Nodup)
    (ha : a ∈ store) (hunsynced : a.synced = false)
    (hfail : syncSingleActionOk net a = false) :
    a ∈ (syncOfflineData true true net store).1 ∧
    (syncOfflineData true true net store).2
      = store.filter (fun b => !b.synced) := by
  constructor
  · have hstore : (syncOfflineData true true net store).1
        = store.map (applySync (syncSingleActionOk net)
            (store.filter (fun b => !b.synced))) :=
      drainLoop_store (syncSingleActionOk net)
        (store.filter (fun b => !b.synced)) store []
    rw [hstore]
    have hcond : (store.filter (fun b => !b.synced)).any
        (fun x => syncSingleActionOk net x && decide (a.id = x.id)) = false := by
      by_contra hc
      rw [Bool.not_eq_false, List.any_eq_true] at hc
      rcases hc with ⟨x, hx, hxp⟩
      have hxp' : syncSingleActionOk net x = true ∧ a.id = x.id := by
        simpa using hxp
      have hxmem : x ∈ store := (List.mem_filter.mp hx).1
      have hxa : a = x :=
        List.inj_on_of_nodup_map hnodup ha hxmem hxp'.2
      have hokx := hxp'.1
      rw [← hxa, hfail] at hokx
      exact Bool.false_ne_true hokx
    have happ : applySync (syncSingleActionOk net)
        (store.filter (fun b => !b.synced)) a = a := by
      simp [applySync, hcond]
    exact happ ▸ List.mem_map_of_mem _ ha
  · have h := drainLoop_log (syncSingleActionOk net)
      (store.filter (fun b => !b.synced)) store []
    simpa using h

/-- Witness for C4: with a network that rejects every request, both queued
actions stay in the store unchanged and both are still attempted. -/
theorem drain_failure_isolated_witness :
    mkActionData inputA 1 0
      ∈ (syncOfflineData true true (fun _ => none) storeAB).1 ∧
    (syncOfflineData true true (fun _ => none) storeAB).2
      = storeAB.filter (fun b => !b.synced) :=
  drain_failure_isolated (fun _ => none) storeAB (mkActionData inputA 1 0)
    (by simp [storeAB, mkActionData]; norm_num)
    (by simp [storeAB]) rfl rfl

/-- C7: writing a value with a positive ttl and reading it back before the
stored expiry returns the value; reading at or past the expiry returns
null (the record is inert, not deleted). -/
theorem cached_data_ttl {α : Type} (store : List (CachedRecord α))
    (key : String) (data : α) (ttl now readTime : Nat) (httl : 0 < ttl) :
    (readTime < now + ttl →
      getCachedData true (setCachedData true store key data ttl now) key
        readTime = some data) ∧
    (now + ttl ≤ readTime →
      getCachedData true (setCachedData true store key data ttl now) key
        readTime = none) := by
  have hrec : getRecord (setCachedData true store key data ttl now) key
      = some { key := key, data := data, timestamp := now,
               expiry := now + ttl } := by
    simp [setCachedData, getRecord]
  constructor
  · intro h
    simp [getCachedData, hrec, h]
  · intro h
    have hnot : ¬ readTime < now + ttl := Nat.not_lt.mpr h
    simp [getCachedData, hrec, hnot]

/-- Witness for C7: a dashboard value cached at t=1000 with a one-hour ttl
is readable at t=1000 and gone at t=3601000. -/
theorem cached_data_ttl_witness :
    getCachedData true (setCachedData true ([] : List (CachedRecord Nat))
      "dashboard" 42 3600000 1000) "dashboard" 1000 = some 42 ∧
    getCachedData true (setCachedData true ([] : List (CachedRecord Nat))
      "dashboard" 42 3600000 1000) "dashboard" 3601000 = none :=
  ⟨(cached_data_ttl [] "dashboard" 42 3600000 1000 1000 (by norm_num)).1
      (by norm_num),
   (cached_data_ttl [] "dashboard" 42 3600000 1000 3601000 (by norm_num)).2
      (by norm_num)⟩
